import Mathlib

/-!
Verification of the staged-pipeline orchestration and output-resolution core
of the Photo_Restoration repository.

The Python source is shallowly embedded:

* `make_grid` (photo_restoration_runner.py) — only its dimension arithmetic is
  modelled (`make_grid_dims`); the float expression `int(H * (600 / (W*2)))`
  is modelled as exact natural-number floor division `H * 600 / (W * 2)`,
  which agrees with the float computation wherever the latter is exact.
* `restore_photos` (photo_restoration_runner.py) — embedded as a function on
  an explicit `RunnerState` (existence of the engine directory and script and
  the node at the job's output path), returning the success flag, the new
  state and the external invocation performed, if any.  The directory
  preparation lines are `prepareOutput`; the command string built by the
  source is modelled as its whitespace-separated token list `buildCommand`.
* `process_single_image` / `process_multiple_images` (gradio_app.py) — the
  filesystem is an abstract map from directory path to an optional listing;
  images are represented by their paths; every directory creation, file
  copy, engine invocation and output-directory inspection is recorded in an
  explicit `Effect` trace.  Temporary-directory paths are fixed to the
  stand-ins "tmp/input" / "tmp/output".
-/

/-- Abstract filesystem view used by the output resolver: a directory path is
mapped to `some` listing (the names `os.listdir` would return, in order) when
the path exists, `none` when it does not. -/
abbrev FS := String → Option (List String)

/-- Image filename extensions recognised by the fallback scan in
gradio_app.py (`file.lower().endswith(('.jpg', '.jpeg', '.png', '.bmp'))`). -/
def imageExtensions : List String := [".jpg", ".jpeg", ".png", ".bmp"]

/-- ASCII lower-casing of one character, the effect of Python `str.lower`
on the ASCII filenames this code handles. -/
def lowerChar (c : Char) : Char :=
  if 'A' ≤ c ∧ c ≤ 'Z' then Char.ofNat (c.toNat + 32) else c

/-- Suffix test on character lists, the effect of Python `str.endswith`. -/
def charsSuffix (l suf : List Char) : Bool :=
  if l.length < suf.length then false
  else l.drop (l.length - suf.length) == suf

/-- Embeds the per-file test of the fallback scan:
`file.lower().endswith(('.jpg', '.jpeg', '.png', '.bmp'))`. -/
def isImageFile (f : String) : Bool :=
  imageExtensions.any (fun e => charsSuffix (f.toList.map lowerChar) e.toList)

/-- Embeds one iteration of the candidate-directory loop of
`process_single_image` (gradio_app.py lines 300-326): a non-existent
directory yields nothing; an exact `srcName` hit wins; otherwise the first
listed file with a recognised image extension wins. -/
def resolveInDir (fs : FS) (dir : String) (srcName : String) : Option String :=
  match fs dir with
  | none => none
  | some contents =>
    if contents.contains srcName then some (dir ++ "/" ++ srcName)
    else
      match contents.find? isImageFile with
      | some f => some (dir ++ "/" ++ f)
      | none => none

/-- Embeds the outer candidate-directory loop: the first directory producing
a match wins and the search stops. -/
def resolveFirst (fs : FS) (dirs : List String) (srcName : String) : Option String :=
  match dirs with
  | [] => none
  | d :: rest =>
    match resolveInDir fs d srcName with
    | some p => some p
    | none => resolveFirst fs rest srcName

/-- The ordered candidate list of `process_single_image`
(gradio_app.py lines 291-298), verbatim from the source. -/
def possible_output_dirs (output_dir : String) : List String :=
  [output_dir ++ "/final_output",
   output_dir,
   output_dir ++ "/restored_image",
   output_dir ++ "/stage_1_restore_output/restored_image",
   output_dir ++ "/stage_1_restore_output/origin",
   output_dir ++ "/stage_3_face_output/each_img"]

/-- The candidate directories actually inspected before the loop stops:
every directory up to and including the first one that yields a match. -/
def visitedDirs (fs : FS) (dirs : List String) (srcName : String) : List String :=
  match dirs with
  | [] => []
  | d :: rest =>
    match resolveInDir fs d srcName with
    | some _ => [d]
    | none => d :: visitedDirs fs rest srcName

/-- A filesystem node at a fixed path: a regular file or a directory with a
listing. -/
inductive FsNode where
  | file : FsNode
  | dir : List String → FsNode
deriving DecidableEq, Repr

/-- Embeds the output-directory preparation of `restore_photos`
(photo_restoration_runner.py lines 79-81): `shutil.rmtree` when the path is
a directory, then `os.makedirs`.  When the path holds a regular file the
`isdir` guard skips the removal and `os.makedirs` raises, modelled as an
error value. -/
def prepareOutput (st : Option FsNode) : Except String (Option FsNode) :=
  match st with
  | some (FsNode.dir _) => Except.ok (some (FsNode.dir []))
  | some FsNode.file => Except.error "FileExistsError"
  | none => Except.ok (some (FsNode.dir []))

/-- The parameters of one `restore_photos` call (input folder, output folder,
GPU id, scratch-removal flag, high-resolution flag). -/
structure RestorationJob where
  input_folder : String
  output_folder : String
  gpu_id : Int
  with_scratch : Bool
  hr : Bool
deriving DecidableEq, Repr

/-- The engine command of photo_restoration_runner.py line 84-90 as its
whitespace-separated token list (the source builds the same tokens into one
f-string). -/
def buildCommand (j : RestorationJob) : List String :=
  ["python", "run.py",
   "--input_folder", j.input_folder,
   "--output_folder", j.output_folder,
   "--GPU", toString j.gpu_id]
  ++ (if j.with_scratch then ["--with_scratch"] else [])
  ++ (if j.hr then ["--HR"] else [])

/-- The filesystem facts `restore_photos` consults or mutates: whether the
engine directory and its run.py script exist, and the node currently at the
job's output path. -/
structure RunnerState where
  photoRestorationExists : Bool
  runPyExists : Bool
  outputDir : Option FsNode
deriving DecidableEq, Repr

/-- What a `restore_photos` call produced: its boolean return value, the
runner state afterwards, and the external command it executed together with
its working directory (`none` when no command was run). -/
structure RunOutcome where
  success : Bool
  state : RunnerState
  ran : Option (List String × String)
deriving DecidableEq, Repr

/-- Embeds `restore_photos` (photo_restoration_runner.py lines 53-104).  The
exit status of the external engine is the parameter `engineRc`; the command
succeeds exactly when it is zero (`run_command`, lines 18-26). -/
def restore_photos (st : RunnerState) (j : RestorationJob) (engineRc : Int) :
    Except String RunOutcome :=
  if st.photoRestorationExists = false then Except.ok ⟨false, st, none⟩
  else if st.runPyExists = false then Except.ok ⟨false, st, none⟩
  else
    match prepareOutput st.outputDir with
    | Except.error e => Except.error e
    | Except.ok d =>
        Except.ok ⟨engineRc == 0, { st with outputDir := d },
          some (buildCommand j, "photo_restoration")⟩

/-- Embeds the dimension arithmetic of `make_grid`
(photo_restoration_runner.py lines 28-51): the side-by-side canvas is
`(W*2, H)`; when `resize` is set it is rescaled to width 600, the new height
being `int(H * (600 / (W*2)))`, i.e. the floor of `H * 600 / (W*2)`. -/
def make_grid_dims (W H : Nat) (resize : Bool) : Nat × Nat :=
  let combined : Nat × Nat := (W * 2, H)
  if resize then
    let W_base := 600
    let H_new := H * W_base / (W * 2)
    (W_base, H_new)
  else combined

/-- Modelled from the spec: rounding to the nearest integer (half away from
zero) of the ratio `num / den`, the `round` the spec's height formula
demands.  Only used to compare the spec's formula with the source's. -/
def specRound (num den : Nat) : Nat := (2 * num + den) / (2 * den)

/-- Embeds `Path(p).suffix` of pathlib as used in `process_multiple_images`:
the extension of the final path component, empty when the last dot is
leading, trailing or absent. -/
def pathSuffix (p : String) : String :=
  let name := ((p.splitOn "/").getLast?).getD ""
  let cs := name.toList
  match ((List.range cs.length).filter
      (fun i => cs.get? i == some '.')).getLast? with
  | none => ""
  | some i => if 0 < i ∧ i + 1 < cs.length then String.mk (cs.drop i) else ""

/-- The name under which `process_multiple_images` stages the i-th uploaded
file in the input directory (gradio_app.py lines 383-388): index-based, the
original extension preserved. -/
def stagedName (i : Nat) (f : String) : String :=
  "image_" ++ toString i ++ pathSuffix f

/-- One entry of the gallery returned by `process_multiple_images`: the
original image, the restored image and the comparison grid, each absent when
not produced.  Images are represented by the path they were loaded from; the
comparison image carries no data the claims inspect. -/
structure GalleryItem where
  original : Option String
  restored : Option String
  comparison : Option Unit
deriving DecidableEq, Repr

/-- Environment of one `process_multiple_images` run: the boolean returned
by `restore_photos` and the state of the engine's final_output directory
afterwards (existence, and the set of filenames present in it). -/
structure MultiEnv where
  engineSuccess : Bool
  finalOutputExists : Bool
  finalOutputContents : List String
deriving DecidableEq, Repr

/-- Filesystem side effects the gradio driver functions perform, recorded in
order: directory creation, file copy, the external engine invocation, and
each existence check or listing of an output candidate path. -/
inductive Effect where
  | makedirs : String → Effect
  | copyFile : String → String → Effect
  | engineInvoke : Effect
  | outputScan : String → Effect
deriving DecidableEq, Repr

/-- Per-item result resolution of `process_multiple_images`
(gradio_app.py lines 410-424): a `None` upload stays empty; otherwise the
restored image is looked up in final_output under the staged name. -/
def resolveItem (env : MultiEnv) (outDir : String) (i : Nat)
    (f? : Option String) : GalleryItem :=
  match f? with
  | none => ⟨none, none, none⟩
  | some f =>
    let name := stagedName i f
    if env.finalOutputContents.contains name then
      ⟨some f, some (outDir ++ "/final_output/" ++ name), some ()⟩
    else
      ⟨some f, none, none⟩

/-- Embeds `process_multiple_images` (gradio_app.py lines 356-426).  `files`
is `none` for a `None` upload list and each element is `none` for a `None`
entry; the guard `if not files` catches both `None` and the empty list.
Returns the gallery list and the effect trace. -/
def process_multiple_images (files : Option (List (Option String)))
    (env : MultiEnv) : List GalleryItem × List Effect :=
  match files with
  | none => ([], [])
  | some l =>
    if l.isEmpty then ([], [])
    else
      let copyEffs : List Effect :=
        l.enum.filterMap
          (fun p => p.2.map
            (fun f => Effect.copyFile f ("tmp/input/" ++ stagedName p.1 f)))
      let baseEffs := [Effect.makedirs "tmp/input", Effect.makedirs "tmp/output"]
        ++ copyEffs ++ [Effect.engineInvoke]
      if env.engineSuccess = false then
        (List.replicate l.length ⟨none, none, none⟩, baseEffs)
      else
        let scanFinal := [Effect.outputScan "tmp/output/final_output"]
        if env.finalOutputExists then
          (l.enum.map (fun p => resolveItem env "tmp/output" p.1 p.2),
           baseEffs ++ scanFinal ++
             l.enum.filterMap (fun p => p.2.map
               (fun f => Effect.outputScan
                 ("tmp/output/final_output/" ++ stagedName p.1 f))))
        else
          ([], baseEffs ++ scanFinal)

/-- Environment of one `process_single_image` run: the boolean returned by
`restore_photos` and the output-directory filesystem it left behind. -/
structure SingleEnv where
  engineSuccess : Bool
  fs : FS

/-- Embeds `process_single_image` (gradio_app.py lines 221-354).  The upload
is represented by a path stand-in; the saved input is always named
"uploaded_image.jpg"; on success the result is resolved over
`possible_output_dirs`; the download file is written under "downloads".
Returns `(original, restored, download_path)` and the effect trace. -/
def process_single_image (image : Option String) (env : SingleEnv) :
    (Option String × Option String × Option String) × List Effect :=
  match image with
  | none => ((none, none, none), [])
  | some img =>
    let baseEffs := [Effect.makedirs "tmp/input", Effect.makedirs "tmp/output",
      Effect.engineInvoke]
    if env.engineSuccess = false then
      ((none, none, none), baseEffs)
    else
      let dirs := possible_output_dirs "tmp/output"
      let scans := (visitedDirs env.fs dirs "uploaded_image.jpg").map
        Effect.outputScan
      match resolveFirst env.fs dirs "uploaded_image.jpg" with
      | some p =>
          ((some img, some p, some "downloads/restored_photo.jpg"),
           baseEffs ++ scans ++ [Effect.makedirs "downloads"])
      | none => ((none, none, none), baseEffs ++ scans)

/-- C3 counterexample: for an original of width 400 and height 1, the code
composes a resized grid of height `int(1 * 600 / 800) = 0`, while the
claim's formula `round(1 * 600 / (2 * 400)) = round(0.75)` gives 1. -/
theorem make_grid_height_truncates_not_rounds :
    (make_grid_dims 400 1 true).2 = 0 ∧ specRound (1 * 600) (2 * 400) = 1 ∧
    (0 : Nat) ≠ 1 := by decide

/-- C3 (amended): composing with `target_width = 600` and `resize = true`
yields width 600 and height the FLOOR (truncation, via Python `int`) of
`H * 600 / (2 * W)`, not its nearest-integer rounding. -/
theorem make_grid_resize_dims (W H : Nat) :
    (make_grid_dims W H true).1 = 600 ∧
    (make_grid_dims W H true).2 = ⌊((H : ℚ) * 600) / ((W : ℚ) * 2)⌋₊ := by
  refine ⟨rfl, ?_⟩
  show H * 600 / (W * 2) = _
  rw [show ((H : ℚ) * 600) / ((W : ℚ) * 2)
      = ((H * 600 : ℕ) : ℚ) / ((W * 2 : ℕ) : ℚ) by push_cast; ring]
  rw [Nat.floor_div_nat, Nat.floor_natCast]

/-- C4 counterexample: for an original 100 wide (doubled width 200, at most
600), the composed canvas before resizing is 200 x 50 but the resized result
is 600 x 150 — the canvas is enlarged, contradicting "never upscaled". -/
theorem make_grid_upscales_small_input :
    make_grid_dims 100 50 false = (200, 50) ∧
    make_grid_dims 100 50 true = (600, 150) ∧ 200 < 600 := by decide

/-- C4 (amended): when `resize` is set the combined canvas is always
rescaled so its width equals 600, upscaling whenever the doubled original
width is below 600 (the code never compares against the target first). -/
theorem make_grid_always_forces_width (W H : Nat) :
    (make_grid_dims W H true).1 = 600 ∧
    (W * 2 < 600 → (make_grid_dims W H false).1 < (make_grid_dims W H true).1) := by
  refine ⟨rfl, ?_⟩
  intro h
  simpa [make_grid_dims] using h

/-- Witness for `make_grid_always_forces_width` at a 100-wide original. -/
theorem make_grid_always_forces_width_witness :
    100 * 2 < 600 ∧
    (make_grid_dims 100 50 false).1 < (make_grid_dims 100 50 true).1 :=
  ⟨by decide, (make_grid_always_forces_width 100 50).2 (by decide)⟩

/-- C7 (confirmed): the directory-preparation step (remove the output
directory if present, then recreate it) always succeeds on a directory or an
absent path and leaves an existing, empty directory; composing it with
itself changes nothing, and no file present before a run — including
artifacts `arts` written by a previous run — survives it. -/
theorem prepare_output_idempotent (c arts : List String) :
    prepareOutput (some (FsNode.dir c)) = Except.ok (some (FsNode.dir [])) ∧
    prepareOutput none = Except.ok (some (FsNode.dir [])) ∧
    (prepareOutput (some (FsNode.dir c))).bind prepareOutput
      = prepareOutput (some (FsNode.dir c)) ∧
    prepareOutput (some (FsNode.dir arts)) = Except.ok (some (FsNode.dir [])) :=
  ⟨rfl, rfl, rfl, rfl⟩

/-- C9 (confirmed): when the engine directory or its run.py script is
missing, `restore_photos` returns failure with the runner state — in
particular the node at the output path — completely unchanged, and no
external command is executed. -/
theorem restore_photos_setup_missing_no_mutation (st : RunnerState)
    (j : RestorationJob) (rc : Int)
    (h : st.photoRestorationExists = false ∨ st.runPyExists = false) :
    restore_photos st j rc = Except.ok ⟨false, st, none⟩ := by
  rcases h with h | h
  · simp [restore_photos, h]
  · cases hp : st.photoRestorationExists <;> simp [restore_photos, h, hp]

/-- Witness for `restore_photos_setup_missing_no_mutation`: with the engine
directory missing and a populated output directory, the call fails and the
old output contents survive untouched. -/
theorem restore_photos_setup_missing_witness :
    (RunnerState.mk false true (some (FsNode.dir ["old.jpg"]))).photoRestorationExists
      = false ∧
    restore_photos (RunnerState.mk false true (some (FsNode.dir ["old.jpg"])))
        (RestorationJob.mk "in" "out" (-1) false false) 0
      = Except.ok ⟨false,
          RunnerState.mk false true (some (FsNode.dir ["old.jpg"])), none⟩ :=
  ⟨rfl, restore_photos_setup_missing_no_mutation _ _ _ (Or.inl rfl)⟩

/-- C10 (confirmed): an absent input is a no-op at the driver interface —
`process_single_image` on `None` returns `(None, None, None)`, and
`process_multiple_images` on `None` or an empty list returns the empty
list; in every case the effect trace is empty, so the engine is never
invoked and no directory is created, deleted or modified. -/
theorem absent_input_is_noop (envS : SingleEnv) (envM : MultiEnv) :
    process_single_image none envS = ((none, none, none), []) ∧
    process_multiple_images none envM = ([], []) ∧
    process_multiple_images (some []) envM = ([], []) :=
  ⟨rfl, rfl, rfl⟩

/-- C5 counterexample: in the resolver's ordered candidate list the output
root sits at position 1 (second, right after final_output), while the last,
lowest-priority candidate is the stage-3 per-image directory — the root is
not the last resort. -/
theorem root_candidate_not_last :
    (possible_output_dirs "out").get? 1 = some "out" ∧
    (possible_output_dirs "out").getLast?
      = some "out/stage_3_face_output/each_img" ∧
    ("out" : String) ≠ "out/stage_3_face_output/each_img" := by decide

/-- C5 (amended): when the final_output candidate does not exist and the
output root contains the source filename, resolution returns the root path;
but the root is the SECOND candidate of the ordered list (index 1), not the
lowest-priority last resort. -/
theorem resolver_root_fallback (out : String) (fs : FS) (c : List String)
    (h1 : fs (out ++ "/final_output") = none)
    (h2 : fs out = some c)
    (h3 : c.contains "photo.jpg" = true) :
    resolveFirst fs (possible_output_dirs out) "photo.jpg"
      = some (out ++ "/" ++ "photo.jpg") ∧
    (possible_output_dirs out).get? 1 = some out := by
  refine ⟨?_, rfl⟩
  have hmem : "photo.jpg" ∈ c := by simpa using h3
  simp [possible_output_dirs, resolveFirst, resolveInDir, h1, h2, hmem]

/-- Witness for `resolver_root_fallback`: a filesystem where only the root
"sout" exists and holds photo.jpg. -/
def fsRootOnly : FS := fun d => if d = "sout" then some ["photo.jpg"] else none

/-- Witness for `resolver_root_fallback` at the filesystem `fsRootOnly`. -/
theorem resolver_root_fallback_witness :
    fsRootOnly ("sout" ++ "/final_output") = none ∧
    fsRootOnly "sout" = some ["photo.jpg"] ∧
    resolveFirst fsRootOnly (possible_output_dirs "sout") "photo.jpg"
      = some ("sout" ++ "/" ++ "photo.jpg") :=
  ⟨by decide, by decide,
    (resolver_root_fallback "sout" fsRootOnly ["photo.jpg"]
      (by decide) (by decide) (by decide)).1⟩

/-- C6 (confirmed): for every candidate directory, in order: a non-existent
directory is skipped; an exact hit on the source filename is the match and
stops the search; otherwise the first listed file with a recognised image
extension is the match and stops the search; and when every existing
candidate yields neither kind of match, resolution returns `none`. -/
theorem resolver_directory_rules (fs : FS) (d : String) (rest : List String)
    (s : String) :
    (fs d = none → resolveFirst fs (d :: rest) s = resolveFirst fs rest s) ∧
    (∀ c, fs d = some c → c.contains s = true →
      resolveFirst fs (d :: rest) s = some (d ++ "/" ++ s)) ∧
    (∀ c f, fs d = some c → c.contains s = false →
      c.find? isImageFile = some f →
      resolveFirst fs (d :: rest) s = some (d ++ "/" ++ f)) ∧
    (∀ dirs : List String,
      (∀ d' ∈ dirs, ∀ c, fs d' = some c →
        c.contains s = false ∧ c.find? isImageFile = none) →
      resolveFirst fs dirs s = none) := by
  refine ⟨?_, ?_, ?_, ?_⟩
  · intro h; simp [resolveFirst, resolveInDir, h]
  · intro c hc hs
    have hmem : s ∈ c := by simpa using hs
    simp [resolveFirst, resolveInDir, hc, hmem]
  · intro c f hc hs hf
    have hmem : s ∉ c := by simpa using hs
    simp [resolveFirst, resolveInDir, hc, hmem, hf]
  · intro dirs hall
    induction dirs with
    | nil => rfl
    | cons d' rest' ih =>
      have hrest := ih (fun x hx => hall x (List.mem_cons_of_mem _ hx))
      have hd := hall d' (List.mem_cons_self _ _)
      cases hfs : fs d' with
      | none => simp [resolveFirst, resolveInDir, hfs, hrest]
      | some c =>
        obtain ⟨hm, hf⟩ := hd c hfs
        have hmem : s ∉ c := by simpa using hm
        simp [resolveFirst, resolveInDir, hfs, hmem, hf, hrest]

/-- Witness for `resolver_directory_rules`: a filesystem whose only existing
directory "w1" holds no image file. -/
def fsPlain : FS := fun d => if d = "w1" then some ["doc.txt"] else none

/-- Witness for `resolver_directory_rules`: with every candidate either
absent or free of matches, resolution yields `none`. -/
theorem resolver_directory_rules_witness :
    resolveFirst fsPlain ["w1", "w2"] "x.jpg" = none := by
  refine (resolver_directory_rules fsPlain "w1" [] "x.jpg").2.2.2 ["w1", "w2"] ?_
  intro d' hd' c hc
  rcases List.mem_cons.mp hd' with h | h
  · subst h
    have he : fsPlain "w1" = some ["doc.txt"] := by decide
    rw [he] at hc
    cases hc
    exact ⟨by decide, by decide⟩
  · rcases List.mem_cons.mp h with h2 | h2
    · subst h2
      have he : fsPlain "w2" = none := by decide
      rw [he] at hc
      cases hc
    · cases h2

/-- C8 (confirmed): with the setup present and the output path not blocked
by a regular file, `restore_photos` runs exactly one command, pinned to the
engine root "photo_restoration" as working directory; the command always
carries `--input_folder` / `--output_folder` / `--GPU` with their values in
place, carries `--with_scratch` iff the scratch option is set and `--HR` iff
the high-resolution option is set.  The folder/GPU disequality hypotheses
rule out a folder name spelled like a flag. -/
theorem restore_photos_command_flags (st : RunnerState) (j : RestorationJob)
    (rc : Int)
    (h1 : st.photoRestorationExists = true)
    (h2 : st.runPyExists = true)
    (h3 : st.outputDir ≠ some FsNode.file)
    (h4 : j.input_folder ≠ "--with_scratch" ∧ j.output_folder ≠ "--with_scratch"
      ∧ toString j.gpu_id ≠ "--with_scratch")
    (h5 : j.input_folder ≠ "--HR" ∧ j.output_folder ≠ "--HR"
      ∧ toString j.gpu_id ≠ "--HR") :
    restore_photos st j rc = Except.ok ⟨rc == 0,
        { st with outputDir := some (FsNode.dir []) },
        some (buildCommand j, "photo_restoration")⟩ ∧
    (buildCommand j).get? 2 = some "--input_folder" ∧
    (buildCommand j).get? 3 = some j.input_folder ∧
    (buildCommand j).get? 4 = some "--output_folder" ∧
    (buildCommand j).get? 5 = some j.output_folder ∧
    (buildCommand j).get? 6 = some "--GPU" ∧
    (buildCommand j).get? 7 = some (toString j.gpu_id) ∧
    (("--with_scratch" ∈ buildCommand j) ↔ j.with_scratch = true) ∧
    (("--HR" ∈ buildCommand j) ↔ j.hr = true) := by
  obtain ⟨h4a, h4b, h4c⟩ := h4
  obtain ⟨h5a, h5b, h5c⟩ := h5
  refine ⟨?_, ?_, ?_, ?_, ?_, ?_, ?_, ?_, ?_⟩
  · cases hd : st.outputDir with
    | none => simp [restore_photos, h1, h2, hd, prepareOutput]
    | some node =>
      cases node with
      | file => exact absurd hd h3
      | dir c => simp [restore_photos, h1, h2, hd, prepareOutput]
  · cases hw : j.with_scratch <;> cases hh : j.hr <;> simp [buildCommand, hw, hh]
  · cases hw : j.with_scratch <;> cases hh : j.hr <;> simp [buildCommand, hw, hh]
  · cases hw : j.with_scratch <;> cases hh : j.hr <;> simp [buildCommand, hw, hh]
  · cases hw : j.with_scratch <;> cases hh : j.hr <;> simp [buildCommand, hw, hh]
  · cases hw : j.with_scratch <;> cases hh : j.hr <;> simp [buildCommand, hw, hh]
  · cases hw : j.with_scratch <;> cases hh : j.hr <;> simp [buildCommand, hw, hh]
  · cases hw : j.with_scratch <;> cases hh : j.hr <;>
      simp [buildCommand, hw, hh, Ne.symm h4a, Ne.symm h4b, Ne.symm h4c]
  · cases hw : j.with_scratch <;> cases hh : j.hr <;>
      simp [buildCommand, hw, hh, Ne.symm h5a, Ne.symm h5b, Ne.symm h5c]

/-- Witness for `restore_photos_command_flags` on a CPU job with scratch
removal on and high resolution off. -/
theorem restore_photos_command_flags_witness :
    restore_photos (RunnerState.mk true true none)
        (RestorationJob.mk "in" "out" (-1) true false) 0
      = Except.ok ⟨(0 : Int) == 0, RunnerState.mk true true (some (FsNode.dir [])),
          some (buildCommand (RestorationJob.mk "in" "out" (-1) true false),
            "photo_restoration")⟩ ∧
    (("--with_scratch" ∈ buildCommand (RestorationJob.mk "in" "out" (-1) true false))
        ↔ (RestorationJob.mk "in" "out" (-1) true false).with_scratch = true) ∧
    (("--HR" ∈ buildCommand (RestorationJob.mk "in" "out" (-1) true false))
        ↔ (RestorationJob.mk "in" "out" (-1) true false).hr = true) := by
  have h := restore_photos_command_flags (RunnerState.mk true true none)
    (RestorationJob.mk "in" "out" (-1) true false) 0 rfl rfl
    (by decide) (by decide) (by decide)
  exact ⟨h.1, h.2.2.2.2.2.2.2.1, h.2.2.2.2.2.2.2.2⟩

/-- Per-item resolution keeps the submitted original in place. -/
theorem resolveItem_original (env : MultiEnv) (outDir : String) (i : Nat)
    (f? : Option String) : (resolveItem env outDir i f?).original = f? := by
  cases f? with
  | none => rfl
  | some f =>
    simp only [resolveItem]
    split <;> rfl

/-- The resolved gallery built over an indexed batch is pointwise aligned
with the submitted inputs, whatever the starting index. -/
theorem forall2_resolveItem (env : MultiEnv) (outDir : String)
    (l : List (Option String)) (n : Nat) :
    List.Forall₂ (fun it f? => GalleryItem.original it = f?)
      ((l.enumFrom n).map (fun p => resolveItem env outDir p.1 p.2)) l := by
  induction l generalizing n with
  | nil => simp
  | cons a t ih =>
    simp only [List.enumFrom, List.map_cons]
    exact List.Forall₂.cons (resolveItem_original env outDir n a) (ih (n + 1))

/-- C1 counterexample: one file is submitted and the engine invocation
succeeds, but the final_output directory is absent, so the batch loop never
runs and the returned batch result is empty — every entry is silently
dropped, instead of the one entry the claim requires. -/
theorem batch_drops_all_when_final_output_missing :
    (process_multiple_images (some [some "a.jpg"])
      (MultiEnv.mk true false [])).1 = [] ∧
    (process_multiple_images (some [some "a.jpg"])
      (MultiEnv.mk true false [])).1.length ≠ [some "a.jpg"].length := by decide

/-- C1 (amended): when the engine invocation succeeds AND the final_output
directory exists, the batch result has exactly one entry per submitted
input, in submitted order (the i-th entry carries the i-th original, with
unresolved entries kept rather than dropped); when final_output is absent
the coordinator instead returns the empty list. -/
theorem batch_result_one_per_input (l : List (Option String)) (env : MultiEnv)
    (h1 : env.engineSuccess = true) (h2 : env.finalOutputExists = true) :
    (process_multiple_images (some l) env).1.length = l.length ∧
    List.Forall₂ (fun it f? => GalleryItem.original it = f?)
      (process_multiple_images (some l) env).1 l := by
  have key : (process_multiple_images (some l) env).1
      = (l.enumFrom 0).map (fun p => resolveItem env "tmp/output" p.1 p.2) := by
    by_cases he : l.isEmpty
    · have hl : l = [] := by simpa using he
      subst hl
      rfl
    · simp [process_multiple_images, he, h1, h2, List.enum]
  have hf := forall2_resolveItem env "tmp/output" l 0
  rw [key]
  exact ⟨hf.length_eq, hf⟩

/-- Witness for `batch_result_one_per_input` on a two-item batch where only
the first item resolves. -/
theorem batch_result_one_per_input_witness :
    (MultiEnv.mk true true ["image_0.jpg"]).engineSuccess = true ∧
    (MultiEnv.mk true true ["image_0.jpg"]).finalOutputExists = true ∧
    (process_multiple_images (some [some "a.jpg", none])
      (MultiEnv.mk true true ["image_0.jpg"])).1.length
        = [some "a.jpg", none].length :=
  ⟨rfl, rfl,
    (batch_result_one_per_input [some "a.jpg", none]
      (MultiEnv.mk true true ["image_0.jpg"]) rfl rfl).1⟩

/-- C2 (confirmed): when the engine invocation fails, the batch result is
one all-absent entry per submitted file (every restored result is `none`),
and the effect trace holds no inspection of any output candidate path — the
coordinator short-circuits without scanning the filesystem for outputs. -/
theorem batch_short_circuit_on_engine_failure (l : List (Option String))
    (env : MultiEnv) (h : env.engineSuccess = false) :
    (process_multiple_images (some l) env).1
      = List.replicate l.length ⟨none, none, none⟩ ∧
    (∀ it ∈ (process_multiple_images (some l) env).1,
      GalleryItem.restored it = none) ∧
    (∀ p, Effect.outputScan p ∉ (process_multiple_images (some l) env).2) := by
  by_cases he : l.isEmpty
  · have hl : l = [] := by simpa using he
    subst hl
    refine ⟨rfl, ?_, ?_⟩
    · intro it hit; cases hit
    · intro p hp; cases hp
  · have key1 : (process_multiple_images (some l) env).1
        = List.replicate l.length ⟨none, none, none⟩ := by
      simp [process_multiple_images, he, h]
    refine ⟨key1, ?_, ?_⟩
    · rw [key1]
      intro it hit
      rw [List.eq_of_mem_replicate hit]
    · intro p
      simp [process_multiple_images, he, h, List.mem_filterMap]

/-- Witness for `batch_short_circuit_on_engine_failure` on a one-item batch
with a failing engine run. -/
theorem batch_short_circuit_witness :
    (MultiEnv.mk false true ["x.jpg"]).engineSuccess = false ∧
    (process_multiple_images (some [some "a.jpg"])
      (MultiEnv.mk false true ["x.jpg"])).1
        = List.replicate [some "a.jpg"].length ⟨none, none, none⟩ :=
  ⟨rfl,
    (batch_short_circuit_on_engine_failure [some "a.jpg"]
      (MultiEnv.mk false true ["x.jpg"]) rfl).1⟩
